import Mathlib

/-!
Verification of the OpenStack infrastructure provisioning-values engine.

The definitions below are a shallow embedding of the Go package
`pkg/internal/infrastructure` (terraform template values, terraform state
extraction and status reconstruction) together with small models of the
helper lookups and of the control-plane chart-values logic that is only
visible through its tests.  Go maps with conditionally inserted keys are
embedded as association lists or as records with `Option` fields; Go
`(value, error)` returns are embedded as `Except String`.
-/

/-- Go map indexing on a `map[string]string`: a missing key yields the zero
value `""`. -/
def lookupD (vars : List (String × String)) (key : String) : String :=
  ((vars.lookup key).getD "")

/-! ## Data model (API types used by the infrastructure package) -/

/-- Declared router of `api.Networks` (an existing router is referenced by ID). -/
structure Router where
  id : String
  deriving Repr, DecidableEq

/-- Declared share network toggle of `api.Networks`. -/
structure ShareNetwork where
  enabled : Bool
  deriving Repr, DecidableEq

/-- Embeds `api.Networks`: declared networking intent. -/
structure Networks where
  router : Option Router
  id : Option String
  workers : String
  shareNetwork : Option ShareNetwork
  deriving Repr, DecidableEq

/-- Embeds `api.InfrastructureConfig`. -/
structure InfrastructureConfig where
  floatingPoolName : String
  floatingPoolSubnetName : Option String
  networks : Networks
  deriving Repr, DecidableEq

/-- Embeds `api.FloatingPool` constraint entry of the cloud profile. -/
structure FloatingPool where
  name : String
  region : Option String
  defaultFloatingSubnet : Option String
  deriving Repr, DecidableEq

/-- Embeds `api.Constraints` of the cloud profile. -/
structure Constraints where
  floatingPools : List FloatingPool
  deriving Repr, DecidableEq

/-- Embeds `api.KeyStoneURL`: a region-specific keystone endpoint. -/
structure KeyStoneURL where
  region : String
  url : String
  caCert : Option String
  deriving Repr, DecidableEq

/-- Embeds `api.CloudProfileConfig` (the fields read by this package). -/
structure CloudProfileConfig where
  keyStoneURL : String
  keyStoneURLs : List KeyStoneURL
  keyStoneCACert : Option String
  keyStoneForceInsecure : Bool
  useSNAT : Option Bool
  dnsServers : List String
  constraints : Constraints
  deriving Repr, DecidableEq

/-- The fields of `extensionsv1alpha1.Infrastructure` read by this package. -/
structure Infrastructure where
  region : String
  sshPublicKey : String
  infraNamespace : String
  deriving Repr, DecidableEq

/-- Modelled from the spec: the cluster hands the engine an
already-decoded structured cloud-profile config; decoding may fail. -/
structure Cluster where
  cloudProfileConfig : Except String CloudProfileConfig

/-- Modelled from the spec: `helper.CloudProfileConfigFromCluster` returns the
decoded cloud-profile config of the cluster, or the decode error. -/
def CloudProfileConfigFromCluster (cluster : Cluster) : Except String CloudProfileConfig :=
  cluster.cloudProfileConfig

/-! ## Constants of the infrastructure package -/

/-- Key for accessing the SSH key name from outputs in terraform. -/
def TerraformOutputKeySSHKeyName : String := "key_name"

/-- Key of the id of the router between provider network and the worker subnet. -/
def TerraformOutputKeyRouterID : String := "router_id"

/-- Key of the ip address of the router. -/
def TerraformOutputKeyRouterIP : String := "router_ip"

/-- Key of the private worker network. -/
def TerraformOutputKeyNetworkID : String := "network_id"

/-- Key of the private worker network name. -/
def TerraformOutputKeyNetworkName : String := "network_name"

/-- Key of the id of the worker security group. -/
def TerraformOutputKeySecurityGroupID : String := "security_group_id"

/-- Key of the name of the worker security group. -/
def TerraformOutputKeySecurityGroupName : String := "security_group_name"

/-- Key of the id of the provider network. -/
def TerraformOutputKeyFloatingNetworkID : String := "floating_network_id"

/-- Key of the id of the worker subnet. -/
def TerraformOutputKeySubnetID : String := "subnet_id"

/-- Key of the share network id. -/
def TerraformOutputKeyShareNetworkID : String := "share_network_id"

/-- Key of the share network name. -/
def TerraformOutputKeyShareNetworkName : String := "share_network_name"

/-- The computed router ID as generated by terraform. -/
def DefaultRouterID : String := "openstack_networking_router_v2.router.id"

/-- Maximum retries for failed requests. -/
def MaxApiCallRetries : String := "10"

/-! ## Modelled helper lookups -/

/-- Modelled from the spec: `helper.FindFloatingPool` looks the named floating
pool up in the per-region catalog of the cloud-profile constraints; absence of
a matching pool is an error result that callers may tolerate. -/
def FindFloatingPool (floatingPools : List FloatingPool) (floatingPoolName : String)
    (region : String) : Except String FloatingPool :=
  match floatingPools.find? (fun p =>
      p.name == floatingPoolName && (p.region == none || p.region == some region)) with
  | some p => Except.ok p
  | none => Except.error ("cannot find floating pool " ++ floatingPoolName)

/-- Modelled from the spec: `helper.FindKeyStoneURL` resolves the keystone URL
for the target region from the per-region list, falling back to the global
default; the keystone URL is mandatory, so failure to resolve is an error. -/
def FindKeyStoneURL (keyStoneURLs : List KeyStoneURL) (keyStoneURL : String)
    (region : String) : Except String String :=
  match keyStoneURLs.find? (fun k => k.region == region) with
  | some k => Except.ok k.url
  | none =>
    if keyStoneURL ≠ "" then Except.ok keyStoneURL
    else Except.error ("cannot find keystone URL for region " ++ region)

/-- Modelled from the spec: `helper.FindKeyStoneCACert` resolves the optional
keystone CA certificate for the target region, falling back to the global one. -/
def FindKeyStoneCACert (keyStoneURLs : List KeyStoneURL) (caCert : Option String)
    (region : String) : Option String :=
  match keyStoneURLs.find? (fun k => k.region == region) with
  | some k =>
    match k.caCert with
    | some c => some c
    | none => caCert
  | none => caCert

/-- Modelled from the spec: `WorkersCIDR` returns the declared worker CIDR of
the infrastructure config. -/
def WorkersCIDR (config : InfrastructureConfig) : String :=
  config.networks.workers

/-- Embeds `strconv.Quote` on the strings appearing here: wrap in double quotes,
escaping backslashes and double quotes. -/
def goQuote (s : String) : String :=
  "\"" ++ String.join (s.data.map (fun c =>
    if c = '"' then "\\\"" else if c = '\\' then "\\\\" else String.singleton c)) ++ "\""

/-! ## Terraform template values (`ComputeTerraformerTemplateValues`) -/

/-- The `openstack` section of the template values. -/
structure OpenstackSection where
  maxApiCallRetries : String
  authURL : String
  region : String
  insecure : Bool
  floatingPoolName : String
  useCACert : Bool
  deriving Repr, DecidableEq

/-- The `create` section of the template values. -/
structure CreateSection where
  router : Bool
  network : Bool
  shareNetwork : Bool
  deriving Repr, DecidableEq

/-- The `router` section of the template values; the optional fields model the
conditionally inserted map keys. -/
structure RouterSection where
  id : String
  floatingPoolSubnet : Option String
  enableSNAT : Option Bool
  deriving Repr, DecidableEq

/-- The `networks` section of the template values. -/
structure NetworksSection where
  workers : String
  id : Option String
  deriving Repr, DecidableEq

/-- The value tree returned by `ComputeTerraformerTemplateValues`; the
`outputKeys` map is embedded as an association list in insertion order. -/
structure TemplateValues where
  openstack : OpenstackSection
  create : CreateSection
  dnsServers : List String
  sshPublicKey : String
  router : RouterSection
  clusterName : String
  networks : NetworksSection
  outputKeys : List (String × String)
  deriving Repr, DecidableEq

/-- The condition `config.Networks.ShareNetwork != nil &&
config.Networks.ShareNetwork.Enabled` used by the source in both the builder
and the extractor. -/
def shareNetworkEnabled (config : InfrastructureConfig) : Bool :=
  match config.networks.shareNetwork with
  | some sn => sn.enabled
  | none => false

/-- Embeds `findFloatingSubnet` of the infrastructure package; the pool lookup is the
spec-modelled `FindFloatingPool`. -/
def findFloatingSubnet (isRouterRequired : Bool) (config : InfrastructureConfig)
    (cloudProfileConfig : CloudProfileConfig) (region : String) : Option String :=
  if !isRouterRequired then
    none
  else
    match config.floatingPoolSubnetName with
    | some s => some s
    | none =>
      match FindFloatingPool cloudProfileConfig.constraints.floatingPools
          config.floatingPoolName region with
      | Except.ok floatingPool =>
        match floatingPool.defaultFloatingSubnet with
        | some d => some d
        | none => none
      | Except.error _ => none

/-- Embeds `ComputeTerraformerTemplateValues` of the infrastructure package. -/
def ComputeTerraformerTemplateValues (infra : Infrastructure)
    (config : InfrastructureConfig) (cluster : Cluster) :
    Except String TemplateValues := do
  let cloudProfileConfig ← CloudProfileConfigFromCluster cluster
  let createRouter :=
    match config.networks.router with
    | some _ => false
    | none => true
  let routerId :=
    match config.networks.router with
    | some r => goQuote r.id
    | none => DefaultRouterID
  let floatingPoolSubnet :=
    findFloatingSubnet createRouter config cloudProfileConfig infra.region
  let keyStoneURL ← FindKeyStoneURL cloudProfileConfig.keyStoneURLs
      cloudProfileConfig.keyStoneURL infra.region
  let keyStoneCA :=
    FindKeyStoneCACert cloudProfileConfig.keyStoneURLs
      cloudProfileConfig.keyStoneCACert infra.region
  let useCACert :=
    match keyStoneCA with
    | some ca => ca.length > 0
    | none => false
  let workersCIDR := WorkersCIDR config
  let createNetwork :=
    match config.networks.id with
    | some _ => false
    | none => true
  let createShareNetwork := shareNetworkEnabled config
  pure {
    openstack := {
      maxApiCallRetries := MaxApiCallRetries
      authURL := keyStoneURL
      region := infra.region
      insecure := cloudProfileConfig.keyStoneForceInsecure
      floatingPoolName := config.floatingPoolName
      useCACert := useCACert }
    create := {
      router := createRouter
      network := createNetwork
      shareNetwork := createShareNetwork }
    dnsServers := cloudProfileConfig.dnsServers
    sshPublicKey := infra.sshPublicKey
    router := {
      id := routerId
      floatingPoolSubnet := floatingPoolSubnet
      enableSNAT := cloudProfileConfig.useSNAT }
    clusterName := infra.infraNamespace
    networks := { workers := workersCIDR, id := config.networks.id }
    outputKeys :=
      [("routerID", TerraformOutputKeyRouterID),
       ("routerIP", TerraformOutputKeyRouterIP),
       ("networkID", TerraformOutputKeyNetworkID),
       ("networkName", TerraformOutputKeyNetworkName),
       ("keyName", TerraformOutputKeySSHKeyName),
       ("securityGroupID", TerraformOutputKeySecurityGroupID),
       ("securityGroupName", TerraformOutputKeySecurityGroupName),
       ("floatingNetworkID", TerraformOutputKeyFloatingNetworkID),
       ("subnetID", TerraformOutputKeySubnetID)] ++
      (if createShareNetwork then
        [("shareNetworkID", TerraformOutputKeyShareNetworkID),
         ("shareNetworkName", TerraformOutputKeyShareNetworkName)]
      else []) }

/-! ## Terraform state extraction and status reconstruction -/

/-- Embeds `TerraformState` of the infrastructure package. -/
structure TerraformState where
  sshKeyName : String
  routerID : String
  routerIP : String
  networkID : String
  networkName : String
  subnetID : String
  floatingNetworkID : String
  securityGroupID : String
  securityGroupName : String
  shareNetworkID : String
  shareNetworkName : String
  deriving Repr, DecidableEq

/-- Modelled from the spec: the output reader of the external provisioning
tool, `GetStateOutputVariables(keys) -> map[string]string, error`; it returns
the value of every requested key and fails when a requested key is absent from
the tool outputs. -/
def GetStateOutputVariables (outputs : List (String × String)) (keys : List String) :
    Except String (List (String × String)) :=
  if keys.all (fun k => (outputs.lookup k).isSome) then
    Except.ok (keys.map (fun k => (k, lookupD outputs k)))
  else
    Except.error "output variables not found in terraform state"

/-- The output key list requested by `ExtractTerraformState`. -/
def extractOutputKeys (config : InfrastructureConfig) : List String :=
  [TerraformOutputKeySSHKeyName,
   TerraformOutputKeyRouterID,
   TerraformOutputKeyRouterIP,
   TerraformOutputKeyNetworkID,
   TerraformOutputKeyNetworkName,
   TerraformOutputKeySubnetID,
   TerraformOutputKeyFloatingNetworkID,
   TerraformOutputKeySecurityGroupID,
   TerraformOutputKeySecurityGroupName] ++
  (if shareNetworkEnabled config then
    [TerraformOutputKeyShareNetworkID, TerraformOutputKeyShareNetworkName]
  else [])

/-- Embeds `ExtractTerraformState` of the infrastructure package; the terraformer is
represented by its output store `outputs`. -/
def ExtractTerraformState (outputs : List (String × String))
    (config : InfrastructureConfig) : Except String TerraformState := do
  let vars ← GetStateOutputVariables outputs (extractOutputKeys config)
  pure {
    sshKeyName := lookupD vars TerraformOutputKeySSHKeyName
    routerID := lookupD vars TerraformOutputKeyRouterID
    routerIP := lookupD vars TerraformOutputKeyRouterIP
    networkID := lookupD vars TerraformOutputKeyNetworkID
    networkName := lookupD vars TerraformOutputKeyNetworkName
    subnetID := lookupD vars TerraformOutputKeySubnetID
    floatingNetworkID := lookupD vars TerraformOutputKeyFloatingNetworkID
    securityGroupID := lookupD vars TerraformOutputKeySecurityGroupID
    securityGroupName := lookupD vars TerraformOutputKeySecurityGroupName
    shareNetworkID := lookupD vars TerraformOutputKeyShareNetworkID
    shareNetworkName := lookupD vars TerraformOutputKeyShareNetworkName }

/-- Subnet and security-group purpose marker (`api.PurposeNodes`). -/
inductive Purpose where
  | nodes
  deriving Repr, DecidableEq

/-- Embeds `apiv1alpha1.ShareNetworkStatus`. -/
structure ShareNetworkStatus where
  id : String
  name : String
  deriving Repr, DecidableEq

/-- Embeds `apiv1alpha1.FloatingPoolStatus`. -/
structure FloatingPoolStatus where
  id : String
  name : String
  deriving Repr, DecidableEq

/-- Embeds `apiv1alpha1.RouterStatus`. -/
structure RouterStatus where
  id : String
  ip : String
  deriving Repr, DecidableEq

/-- Embeds `apiv1alpha1.Subnet`. -/
structure Subnet where
  purpose : Purpose
  id : String
  deriving Repr, DecidableEq

/-- Embeds `apiv1alpha1.NetworkStatus`. -/
structure NetworkStatus where
  id : String
  name : String
  floatingPool : FloatingPoolStatus
  router : RouterStatus
  subnets : List Subnet
  shareNetwork : Option ShareNetworkStatus
  deriving Repr, DecidableEq

/-- Embeds `apiv1alpha1.SecurityGroup`. -/
structure SecurityGroup where
  purpose : Purpose
  id : String
  name : String
  deriving Repr, DecidableEq

/-- Embeds `apiv1alpha1.NodeStatus`. -/
structure NodeStatus where
  keyName : String
  deriving Repr, DecidableEq

/-- Embeds `apiv1alpha1.InfrastructureStatus` (the TypeMeta is omitted). -/
structure InfrastructureStatus where
  networks : NetworkStatus
  securityGroups : List SecurityGroup
  node : NodeStatus
  deriving Repr, DecidableEq

/-- Embeds `StatusFromTerraformState` of the infrastructure package. -/
def StatusFromTerraformState (state : TerraformState) : InfrastructureStatus :=
  let shareNetworkStatus : Option ShareNetworkStatus :=
    if state.shareNetworkID != "" then
      some { id := state.shareNetworkID, name := state.shareNetworkName }
    else
      none
  { networks := {
      id := state.networkID
      name := state.networkName
      floatingPool := { id := state.floatingNetworkID, name := "" }
      router := { id := state.routerID, ip := state.routerIP }
      subnets := [{ purpose := Purpose.nodes, id := state.subnetID }]
      shareNetwork := shareNetworkStatus }
    securityGroups :=
      [{ purpose := Purpose.nodes, id := state.securityGroupID,
         name := state.securityGroupName }]
    node := { keyName := state.sshKeyName } }

/-- Embeds `ComputeStatus` of the infrastructure package. -/
def ComputeStatus (outputs : List (String × String))
    (config : InfrastructureConfig) : Except String InfrastructureStatus := do
  let state ← ExtractTerraformState outputs config
  let status := StatusFromTerraformState state
  pure { status with
    networks := { status.networks with
      floatingPool := { status.networks.floatingPool with
        name := config.floatingPoolName } } }

/-! ## Models of the control-plane chart-values logic -/

/-- Embeds `api.LoadBalancerClass`: a named load-balancer class declaration. -/
structure LoadBalancerClass where
  name : String
  purpose : Option String
  floatingNetworkID : Option String
  floatingSubnetID : Option String
  floatingSubnetName : Option String
  floatingSubnetTags : Option String
  subnetID : Option String
  deriving Repr, DecidableEq

/-- Modelled from the spec: the LoadBalancerClassResolver default-selection
precedence, first match wins — (1) a class whose purpose is `default`,
(2) a class literally named `default`, (3) no default class. -/
def findDefaultLoadBalancerClass (classes : List LoadBalancerClass) :
    Option LoadBalancerClass :=
  match classes.find? (fun c => c.purpose == some "default") with
  | some c => some c
  | none => classes.find? (fun c => c.name == "default")

/-- Modelled from the spec: the top-level `floatingNetworkID` and
`floatingSubnetID` chart values are taken from the designated default class
when one is resolved; otherwise from the legacy top-level floating network. -/
def resolveFloatingClassValues (classes : List LoadBalancerClass)
    (topFloatingNetworkID : String) : String × Option String :=
  match findDefaultLoadBalancerClass classes with
  | some c => (c.floatingNetworkID.getD topFloatingNetworkID, c.floatingSubnetID)
  | none => (topFloatingNetworkID, none)

/-- Credential fields of the config chart values. -/
structure CredentialValues where
  domainName : String
  tenantName : String
  authURL : String
  username : String
  password : String
  applicationCredentialID : String
  applicationCredentialSecret : String
  applicationCredentialName : String
  deriving Repr, DecidableEq

/-- Modelled from the spec: the CredentialResolver feeding the config chart
values — if the `applicationCredentialID` or `applicationCredentialSecret`
keys are non-empty, the username and password fields resolve to empty strings
and the application-credential fields are populated from the secret. -/
def resolveCredentialValues (secret : List (String × String)) : CredentialValues :=
  let appID := lookupD secret "applicationCredentialID"
  let appSecret := lookupD secret "applicationCredentialSecret"
  let useApplicationCredentials := appID != "" || appSecret != ""
  { domainName := lookupD secret "domainName"
    tenantName := lookupD secret "tenantName"
    authURL := lookupD secret "authURL"
    username := if useApplicationCredentials then "" else lookupD secret "username"
    password := if useApplicationCredentials then "" else lookupD secret "password"
    applicationCredentialID := appID
    applicationCredentialSecret := appSecret
    applicationCredentialName := lookupD secret "applicationCredentialName" }

/-- Embeds `gardencorev1beta1.AdmissionPlugin` (name and optional disabled flag). -/
structure AdmissionPlugin where
  name : String
  disabled : Option Bool
  deriving Repr, DecidableEq

/-- Modelled from the spec: `pspDisabled` is true only if the
`PodSecurityPolicy` admission plugin is present in the admission list and
explicitly disabled there; the default is enabled. -/
def isPSPDisabled (admissionPlugins : List AdmissionPlugin) : Bool :=
  admissionPlugins.any (fun p => p.name == "PodSecurityPolicy" && p.disabled == some true)

/-- Modelled from the spec: the shoot chart values carry the `pspDisabled`
flag computed from the admission plugins of the cluster. -/
structure ShootChartValues where
  pspDisabled : Bool
  deriving Repr, DecidableEq

/-- Modelled from the spec: computation of the shoot chart values from the
admission-plugin list of the cluster. -/
def computeShootChartValues (admissionPlugins : List AdmissionPlugin) : ShootChartValues :=
  { pspDisabled := isPSPDisabled admissionPlugins }

/-! ## Concrete fixtures used by witnesses and counterexamples -/

/-- A cloud-profile config with one floating pool and an SNAT policy. -/
def testCPConfig : CloudProfileConfig :=
  { keyStoneURL := "https://keystone.example"
    keyStoneURLs := []
    keyStoneCACert := none
    keyStoneForceInsecure := false
    useSNAT := some true
    dnsServers := []
    constraints := { floatingPools :=
      [{ name := "pool-a", region := none, defaultFloatingSubnet := some "default-subnet" }] } }

/-- A cluster whose cloud-profile config decodes successfully. -/
def testCluster : Cluster := { cloudProfileConfig := Except.ok testCPConfig }

/-- A concrete infrastructure object. -/
def testInfra : Infrastructure :=
  { region := "eu-1", sshPublicKey := "ssh-rsa-key", infraNamespace := "shoot-ns" }

/-- An infrastructure config with an existing router and an enabled share network. -/
def c2Config : InfrastructureConfig :=
  { floatingPoolName := "pool-a"
    floatingPoolSubnetName := none
    networks := {
      router := some { id := "router-1" }
      id := none
      workers := "10.0.0.0/16"
      shareNetwork := some { enabled := true } } }

/-- The template values computed for `testInfra`, `c2Config` and `testCluster`. -/
def c2Values : TemplateValues :=
  { openstack := {
      maxApiCallRetries := "10"
      authURL := "https://keystone.example"
      region := "eu-1"
      insecure := false
      floatingPoolName := "pool-a"
      useCACert := false }
    create := { router := false, network := true, shareNetwork := true }
    dnsServers := []
    sshPublicKey := "ssh-rsa-key"
    router := { id := "\"router-1\"", floatingPoolSubnet := none, enableSNAT := some true }
    clusterName := "shoot-ns"
    networks := { workers := "10.0.0.0/16", id := none }
    outputKeys :=
      [("routerID", "router_id"),
       ("routerIP", "router_ip"),
       ("networkID", "network_id"),
       ("networkName", "network_name"),
       ("keyName", "key_name"),
       ("securityGroupID", "security_group_id"),
       ("securityGroupName", "security_group_name"),
       ("floatingNetworkID", "floating_network_id"),
       ("subnetID", "subnet_id"),
       ("shareNetworkID", "share_network_id"),
       ("shareNetworkName", "share_network_name")] }

/-- A complete outputs store of the provisioning tool, share network included. -/
def rtOutputs : List (String × String) :=
  [("key_name", "key"), ("router_id", "r1"), ("router_ip", "10.0.0.1"),
   ("network_id", "n1"), ("network_name", "net"), ("subnet_id", "sub1"),
   ("floating_network_id", "fn1"), ("security_group_id", "sg1"),
   ("security_group_name", "sgn"), ("share_network_id", "shn1"),
   ("share_network_name", "shname")]

/-- The terraform state extracted from `rtOutputs` for `c2Config`. -/
def rtState : TerraformState :=
  { sshKeyName := "key", routerID := "r1", routerIP := "10.0.0.1", networkID := "n1",
    networkName := "net", subnetID := "sub1", floatingNetworkID := "fn1",
    securityGroupID := "sg1", securityGroupName := "sgn", shareNetworkID := "shn1",
    shareNetworkName := "shname" }

/-- The status computed from `rtOutputs` and `c2Config`. -/
def rtStatus : InfrastructureStatus :=
  { networks := {
      id := "n1", name := "net",
      floatingPool := { id := "fn1", name := "pool-a" },
      router := { id := "r1", ip := "10.0.0.1" },
      subnets := [{ purpose := Purpose.nodes, id := "sub1" }],
      shareNetwork := some { id := "shn1", name := "shname" } }
    securityGroups := [{ purpose := Purpose.nodes, id := "sg1", name := "sgn" }]
    node := { keyName := "key" } }

/-- The same outputs store as `rtOutputs` but with an empty share network id. -/
def rtEmptyOutputs : List (String × String) :=
  [("key_name", "key"), ("router_id", "r1"), ("router_ip", "10.0.0.1"),
   ("network_id", "n1"), ("network_name", "net"), ("subnet_id", "sub1"),
   ("floating_network_id", "fn1"), ("security_group_id", "sg1"),
   ("security_group_name", "sgn"), ("share_network_id", ""),
   ("share_network_name", "shname")]

/-- The status computed from `rtEmptyOutputs` and `c2Config`. -/
def rtEmptyStatus : InfrastructureStatus :=
  { networks := {
      id := "n1", name := "net",
      floatingPool := { id := "fn1", name := "pool-a" },
      router := { id := "r1", ip := "10.0.0.1" },
      subnets := [{ purpose := Purpose.nodes, id := "sub1" }],
      shareNetwork := none }
    securityGroups := [{ purpose := Purpose.nodes, id := "sg1", name := "sgn" }]
    node := { keyName := "key" } }

/-- An infrastructure config with an explicit floating-pool subnet name. -/
def c3ConfigExplicit : InfrastructureConfig :=
  { floatingPoolName := "pool-a"
    floatingPoolSubnetName := some "explicit-subnet"
    networks := { router := none, id := none, workers := "10.0.0.0/16", shareNetwork := none } }

/-- A cloud-profile config with no floating pools at all. -/
def c3EmptyCPC : CloudProfileConfig :=
  { keyStoneURL := "https://keystone.example"
    keyStoneURLs := []
    keyStoneCACert := none
    keyStoneForceInsecure := false
    useSNAT := none
    dnsServers := []
    constraints := { floatingPools := [] } }

/-- The floating pool declared in `testCPConfig`. -/
def poolA : FloatingPool :=
  { name := "pool-a", region := none, defaultFloatingSubnet := some "default-subnet" }

/-- A load-balancer class literally named `default` without the purpose marker. -/
def lbClassNamedDefault : LoadBalancerClass :=
  { name := "default", purpose := none, floatingNetworkID := none,
    floatingSubnetID := some "fip-subnet-1", floatingSubnetName := none,
    floatingSubnetTags := none, subnetID := none }

/-- A load-balancer class carrying the purpose `default`. -/
def lbClassRealDefault : LoadBalancerClass :=
  { name := "real-default", purpose := some "default", floatingNetworkID := none,
    floatingSubnetID := some "fip-subnet-2", floatingSubnetName := none,
    floatingSubnetTags := none, subnetID := none }

/-- A secret holding application credentials and no username or password. -/
def appCredentialSecretData : List (String × String) :=
  [("domainName", "domain-name"), ("tenantName", "tenant-name"),
   ("applicationCredentialID", "app-id"), ("applicationCredentialSecret", "app-secret"),
   ("authURL", "someurl")]

/-! ## Auxiliary lemmas -/

/-- Bind on a successful `Except` value applies the continuation. -/
theorem exceptBind_ok {e a b : Type} (x : a) (f : a -> Except e b) :
    (Except.ok x : Except e a) >>= f = f x := rfl

/-- Bind on a failed `Except` value propagates the error. -/
theorem exceptBind_error {e a b : Type} (err : e) (f : a -> Except e b) :
    (Except.error err : Except e a) >>= f = Except.error err := rfl

/-- Pure of the `Except` monad is `Except.ok`. -/
theorem exceptPure {e a : Type} (x : a) : (pure x : Except e a) = Except.ok x := rfl

/-- Mapping over a successful `Except` value applies the function. -/
theorem exceptMap_ok {e a b : Type} (f : a -> b) (x : a) :
    f <$> (Except.ok x : Except e a) = Except.ok (f x) := rfl

/-- Mapping over a failed `Except` value propagates the error. -/
theorem exceptMap_error {e a b : Type} (f : a -> b) (err : e) :
    f <$> (Except.error err : Except e a) = Except.error err := rfl

/-- Looking a key up in the graph of a function over a key list it does not
belong to yields nothing. -/
theorem lookup_map_not_mem {α β : Type} [BEq α] [LawfulBEq α] (f : α → β) {a : α}
    {as : List α} (h : a ∉ as) :
    List.lookup a (as.map fun x => (x, f x)) = none := by
  induction as with
  | nil => rfl
  | cons b bs ih =>
    simp only [List.mem_cons, not_or] at h
    simp only [List.map_cons, List.lookup, beq_false_of_ne h.1]
    exact ih h.2

/-! ## Claim theorems -/

/-- Claim C2: for every `InfrastructureConfig` whose template values are
computed successfully, the three creation flags of the `create` section are
set exactly as: `createRouter` is false iff an explicit router ID is supplied,
`createNetwork` is false iff an explicit network ID is supplied, and
`createShareNetwork` is true iff the share network is configured and its
`Enabled` field is true. -/
theorem create_flags (infra : Infrastructure) (config : InfrastructureConfig)
    (cluster : Cluster) (v : TemplateValues)
    (h : ComputeTerraformerTemplateValues infra config cluster = Except.ok v) :
    (v.create.router = false ↔ config.networks.router.isSome = true) ∧
    (v.create.network = false ↔ config.networks.id.isSome = true) ∧
    (v.create.shareNetwork = true ↔
      ∃ sn, config.networks.shareNetwork = some sn ∧ sn.enabled = true) := by
  cases hdec : cluster.cloudProfileConfig with
  | error e =>
    simp only [ComputeTerraformerTemplateValues, CloudProfileConfigFromCluster, hdec,
      exceptBind_error] at h
    exact Except.noConfusion h
  | ok cpc =>
    cases hk : FindKeyStoneURL cpc.keyStoneURLs cpc.keyStoneURL infra.region with
    | error e =>
      simp only [ComputeTerraformerTemplateValues, CloudProfileConfigFromCluster, hdec,
        exceptBind_ok, hk, exceptMap_error, exceptPure, exceptBind_error] at h
      exact Except.noConfusion h
    | ok u =>
      simp only [ComputeTerraformerTemplateValues, CloudProfileConfigFromCluster, hdec,
        exceptBind_ok, hk, exceptMap_ok, exceptPure, Except.ok.injEq] at h
      subst h
      refine ⟨?_, ?_, ?_⟩
      · cases config.networks.router <;> simp
      · cases config.networks.id <;> simp
      · cases hsn : config.networks.shareNetwork with
        | none => simp [shareNetworkEnabled, hsn]
        | some sn => cases hb : sn.enabled <;> simp [shareNetworkEnabled, hsn, hb]

/-- Witness for claim C2 at a concrete successful computation. -/
theorem create_flags_witness :
    (ComputeTerraformerTemplateValues testInfra c2Config testCluster = Except.ok c2Values) ∧
    ((c2Values.create.router = false ↔ c2Config.networks.router.isSome = true) ∧
     (c2Values.create.network = false ↔ c2Config.networks.id.isSome = true) ∧
     (c2Values.create.shareNetwork = true ↔
       ∃ sn, c2Config.networks.shareNetwork = some sn ∧ sn.enabled = true)) :=
  ⟨rfl, create_flags testInfra c2Config testCluster c2Values rfl⟩

/-- Claim C5: the `outputKeys` section of the template values and the key
list requested by `ExtractTerraformState` always consist of exactly the nine
base keys — router ID, router IP, network ID, network name, subnet ID,
floating-network ID, security-group ID, security-group name, SSH key name —
together with the share-network ID and name keys iff the share network is
configured and enabled. -/
theorem output_key_table (infra : Infrastructure) (config : InfrastructureConfig)
    (cluster : Cluster) (v : TemplateValues)
    (h : ComputeTerraformerTemplateValues infra config cluster = Except.ok v) :
    v.outputKeys =
      [("routerID", "router_id"),
       ("routerIP", "router_ip"),
       ("networkID", "network_id"),
       ("networkName", "network_name"),
       ("keyName", "key_name"),
       ("securityGroupID", "security_group_id"),
       ("securityGroupName", "security_group_name"),
       ("floatingNetworkID", "floating_network_id"),
       ("subnetID", "subnet_id")] ++
      (if shareNetworkEnabled config then
        [("shareNetworkID", "share_network_id"), ("shareNetworkName", "share_network_name")]
      else []) ∧
    extractOutputKeys config =
      ["key_name", "router_id", "router_ip", "network_id", "network_name", "subnet_id",
       "floating_network_id", "security_group_id", "security_group_name"] ++
      (if shareNetworkEnabled config then ["share_network_id", "share_network_name"]
      else []) := by
  cases hdec : cluster.cloudProfileConfig with
  | error e =>
    simp only [ComputeTerraformerTemplateValues, CloudProfileConfigFromCluster, hdec,
      exceptBind_error] at h
    exact Except.noConfusion h
  | ok cpc =>
    cases hk : FindKeyStoneURL cpc.keyStoneURLs cpc.keyStoneURL infra.region with
    | error e =>
      simp only [ComputeTerraformerTemplateValues, CloudProfileConfigFromCluster, hdec,
        exceptBind_ok, hk, exceptMap_error, exceptPure, exceptBind_error] at h
      exact Except.noConfusion h
    | ok u =>
      simp only [ComputeTerraformerTemplateValues, CloudProfileConfigFromCluster, hdec,
        exceptBind_ok, hk, exceptMap_ok, exceptPure, Except.ok.injEq] at h
      subst h
      exact ⟨rfl, rfl⟩

/-- Witness for claim C5 at a concrete successful computation with the share
network enabled. -/
theorem output_key_table_witness :
    (ComputeTerraformerTemplateValues testInfra c2Config testCluster = Except.ok c2Values) ∧
    (c2Values.outputKeys =
      [("routerID", "router_id"),
       ("routerIP", "router_ip"),
       ("networkID", "network_id"),
       ("networkName", "network_name"),
       ("keyName", "key_name"),
       ("securityGroupID", "security_group_id"),
       ("securityGroupName", "security_group_name"),
       ("floatingNetworkID", "floating_network_id"),
       ("subnetID", "subnet_id")] ++
      (if shareNetworkEnabled c2Config then
        [("shareNetworkID", "share_network_id"), ("shareNetworkName", "share_network_name")]
      else []) ∧
     extractOutputKeys c2Config =
      ["key_name", "router_id", "router_ip", "network_id", "network_name", "subnet_id",
       "floating_network_id", "security_group_id", "security_group_name"] ++
      (if shareNetworkEnabled c2Config then ["share_network_id", "share_network_name"]
      else [])) :=
  ⟨rfl, output_key_table testInfra c2Config testCluster c2Values rfl⟩

/-- Counterexample to claim C4 as stated: for a config supplying an existing
router ID (`createRouter` false) and a cloud profile declaring an SNAT policy,
the returned router variables do contain an `enableSNAT` entry, because the
source inserts it unconditionally. -/
theorem router_snat_counterexample :
    ComputeTerraformerTemplateValues testInfra c2Config testCluster = Except.ok c2Values ∧
    c2Values.create.router = false ∧
    c2Values.router.enableSNAT = some true ∧
    testCPConfig.useSNAT = some true :=
  ⟨rfl, rfl, rfl, rfl⟩

/-- Claim C4, amended: the router variables carry the floating-pool subnet
resolved for the actual router-creation flag — hence no subnet when an
existing router ID is supplied — while the `enableSNAT` entry mirrors the
profile SNAT policy unconditionally, regardless of `createRouter`. -/
theorem router_vars_amended (infra : Infrastructure) (config : InfrastructureConfig)
    (cluster : Cluster) (cpc : CloudProfileConfig) (v : TemplateValues)
    (hdec : CloudProfileConfigFromCluster cluster = Except.ok cpc)
    (h : ComputeTerraformerTemplateValues infra config cluster = Except.ok v) :
    v.router.floatingPoolSubnet =
      findFloatingSubnet config.networks.router.isNone config cpc infra.region ∧
    (config.networks.router.isSome = true → v.router.floatingPoolSubnet = none) ∧
    v.router.enableSNAT = cpc.useSNAT := by
  rw [CloudProfileConfigFromCluster] at hdec
  cases hk : FindKeyStoneURL cpc.keyStoneURLs cpc.keyStoneURL infra.region with
  | error e =>
    simp only [ComputeTerraformerTemplateValues, CloudProfileConfigFromCluster, hdec,
      exceptBind_ok, hk, exceptMap_error, exceptPure, exceptBind_error] at h
    exact Except.noConfusion h
  | ok u =>
    simp only [ComputeTerraformerTemplateValues, CloudProfileConfigFromCluster, hdec,
      exceptBind_ok, hk, exceptMap_ok, exceptPure, Except.ok.injEq] at h
    subst h
    refine ⟨?_, ?_, rfl⟩
    · cases config.networks.router <;> rfl
    · intro hr
      cases hro : config.networks.router with
      | none => rw [hro] at hr; exact Bool.noConfusion hr
      | some r => simp [hro, findFloatingSubnet]

/-- Witness for the amended claim C4 at a concrete successful computation. -/
theorem router_vars_amended_witness :
    (CloudProfileConfigFromCluster testCluster = Except.ok testCPConfig) ∧
    (ComputeTerraformerTemplateValues testInfra c2Config testCluster = Except.ok c2Values) ∧
    (c2Values.router.floatingPoolSubnet =
      findFloatingSubnet c2Config.networks.router.isNone c2Config testCPConfig testInfra.region ∧
     (c2Config.networks.router.isSome = true → c2Values.router.floatingPoolSubnet = none) ∧
     c2Values.router.enableSNAT = testCPConfig.useSNAT) :=
  ⟨rfl, rfl, router_vars_amended testInfra c2Config testCluster testCPConfig c2Values rfl rfl⟩

/-- Claim C6: computing the template values fails exactly when the
cloud-profile config cannot be decoded or the keystone URL for the target
region cannot be resolved; in the `Except` embedding a failure carries no
value tree at all, so no partially populated result is ever returned. -/
theorem template_values_error_characterization (infra : Infrastructure)
    (config : InfrastructureConfig) (cluster : Cluster) :
    (∃ e, ComputeTerraformerTemplateValues infra config cluster = Except.error e) ↔
    ((∃ e, CloudProfileConfigFromCluster cluster = Except.error e) ∨
     (∃ cpc, CloudProfileConfigFromCluster cluster = Except.ok cpc ∧
       ∃ e, FindKeyStoneURL cpc.keyStoneURLs cpc.keyStoneURL infra.region =
         Except.error e)) := by
  cases hdec : cluster.cloudProfileConfig with
  | error e =>
    constructor
    · intro _
      exact Or.inl ⟨e, by rw [CloudProfileConfigFromCluster, hdec]⟩
    · intro _
      refine ⟨e, ?_⟩
      simp only [ComputeTerraformerTemplateValues, CloudProfileConfigFromCluster, hdec,
        exceptBind_error]
  | ok cpc =>
    cases hk : FindKeyStoneURL cpc.keyStoneURLs cpc.keyStoneURL infra.region with
    | error e =>
      constructor
      · intro _
        exact Or.inr ⟨cpc, by rw [CloudProfileConfigFromCluster, hdec], e, hk⟩
      · intro _
        refine ⟨e, ?_⟩
        simp only [ComputeTerraformerTemplateValues, CloudProfileConfigFromCluster, hdec,
          exceptBind_ok, hk, exceptMap_error, exceptPure, exceptBind_error]
    | ok u =>
      constructor
      · intro hcontra
        obtain ⟨e, he⟩ := hcontra
        simp only [ComputeTerraformerTemplateValues, CloudProfileConfigFromCluster, hdec,
          exceptBind_ok, hk, exceptMap_ok, exceptPure] at he
        exact Except.noConfusion he
      · intro hcontra
        rcases hcontra with ⟨e, he⟩ | ⟨cpc2, hcpc2, e, he⟩
        · rw [CloudProfileConfigFromCluster, hdec] at he
          exact Except.noConfusion he
        · rw [CloudProfileConfigFromCluster, hdec] at hcpc2
          cases hcpc2
          rw [hk] at he
          exact Except.noConfusion he

/-- Claim C1, amended: for every config and outputs store from which the
status is reconstructed successfully, the share-network status is non-nil with
exactly the `share_network_id` and `share_network_name` output values iff the
share network is configured and enabled and the `share_network_id` output
value is non-empty; in particular, with `createShareNetwork` false it is nil
regardless of extraneous keys present in the outputs. -/
theorem share_network_roundtrip (outputs : List (String × String))
    (config : InfrastructureConfig) (status : InfrastructureStatus)
    (h : ComputeStatus outputs config = Except.ok status) :
    status.networks.shareNetwork =
      (if shareNetworkEnabled config &&
          (lookupD outputs TerraformOutputKeyShareNetworkID != "") then
        some { id := lookupD outputs TerraformOutputKeyShareNetworkID,
               name := lookupD outputs TerraformOutputKeyShareNetworkName }
      else none) := by
  cases hext : ExtractTerraformState outputs config with
  | error e =>
    simp only [ComputeStatus, hext, exceptBind_error] at h
    exact Except.noConfusion h
  | ok state =>
    simp only [ComputeStatus, hext, exceptBind_ok, exceptPure, Except.ok.injEq] at h
    subst h
    cases hall : (extractOutputKeys config).all (fun k => (outputs.lookup k).isSome) with
    | false =>
      simp only [ExtractTerraformState, GetStateOutputVariables, hall, Bool.false_eq_true,
        if_false, exceptBind_error] at hext
      exact Except.noConfusion hext
    | true =>
      simp only [ExtractTerraformState, GetStateOutputVariables, hall, if_true,
        exceptBind_ok, exceptPure, Except.ok.injEq] at hext
      subst hext
      cases hsn : shareNetworkEnabled config with
      | true =>
        have hmem : TerraformOutputKeyShareNetworkID ∈ extractOutputKeys config := by
          simp [extractOutputKeys, hsn]
        have hmem2 : TerraformOutputKeyShareNetworkName ∈ extractOutputKeys config := by
          simp [extractOutputKeys, hsn]
        simp only [StatusFromTerraformState, lookupD, List.lookup_graph _ hmem,
          List.lookup_graph _ hmem2, Option.getD_some, Bool.true_and]
      | false =>
        have hnotmem : TerraformOutputKeyShareNetworkID ∉ extractOutputKeys config := by
          simp only [extractOutputKeys, hsn, Bool.false_eq_true, if_false, List.append_nil]
          decide
        simp only [StatusFromTerraformState, lookupD, lookup_map_not_mem _ hnotmem,
          Option.getD_none, Bool.false_and, if_false]
        simp

/-- Witness for the amended claim C1: with the share network enabled and a
non-empty share-network id in the outputs the reconstructed share-network
status carries exactly those output values. -/
theorem share_network_roundtrip_witness :
    (ComputeStatus rtOutputs c2Config = Except.ok rtStatus) ∧
    (rtStatus.networks.shareNetwork =
      (if shareNetworkEnabled c2Config &&
          (lookupD rtOutputs TerraformOutputKeyShareNetworkID != "") then
        some { id := lookupD rtOutputs TerraformOutputKeyShareNetworkID,
               name := lookupD rtOutputs TerraformOutputKeyShareNetworkName }
      else none)) :=
  ⟨rfl, share_network_roundtrip rtOutputs c2Config rtStatus rfl⟩

/-- Counterexample to claim C1 as stated: the share network is configured and
enabled and the outputs store contains both share-network keys, yet the
reconstructed share-network status is nil, because the `share_network_id`
output value is the empty string. -/
theorem share_network_roundtrip_counterexample :
    shareNetworkEnabled c2Config = true ∧
    rtEmptyOutputs.lookup TerraformOutputKeyShareNetworkID = some "" ∧
    rtEmptyOutputs.lookup TerraformOutputKeyShareNetworkName = some "shname" ∧
    ComputeStatus rtEmptyOutputs c2Config = Except.ok rtEmptyStatus ∧
    rtEmptyStatus.networks.shareNetwork = none :=
  ⟨rfl, rfl, rfl, rfl, rfl⟩

/-- Claim C10: the status computed by `ComputeStatus` takes its floating-pool
name from the declared `config.FloatingPoolName`, not from any output of the
provisioning tool, while the floating-pool ID and every other network field
come from the extracted terraform state. -/
theorem compute_status_fields (outputs : List (String × String))
    (config : InfrastructureConfig) (status : InfrastructureStatus)
    (state : TerraformState)
    (h : ComputeStatus outputs config = Except.ok status)
    (hext : ExtractTerraformState outputs config = Except.ok state) :
    status.networks.floatingPool.name = config.floatingPoolName ∧
    status.networks.floatingPool.id = state.floatingNetworkID ∧
    status.networks.id = state.networkID ∧
    status.networks.name = state.networkName ∧
    status.networks.router = { id := state.routerID, ip := state.routerIP } ∧
    status.networks.subnets = [{ purpose := Purpose.nodes, id := state.subnetID }] ∧
    status.securityGroups =
      [{ purpose := Purpose.nodes, id := state.securityGroupID,
         name := state.securityGroupName }] ∧
    status.node.keyName = state.sshKeyName ∧
    status.networks.shareNetwork = (StatusFromTerraformState state).networks.shareNetwork := by
  simp only [ComputeStatus, hext, exceptBind_ok, exceptPure, Except.ok.injEq] at h
  subst h
  exact ⟨rfl, rfl, rfl, rfl, rfl, rfl, rfl, rfl, rfl⟩

/-- Witness for claim C10 at a concrete successful computation. -/
theorem compute_status_fields_witness :
    (ComputeStatus rtOutputs c2Config = Except.ok rtStatus) ∧
    (ExtractTerraformState rtOutputs c2Config = Except.ok rtState) ∧
    (rtStatus.networks.floatingPool.name = c2Config.floatingPoolName ∧
     rtStatus.networks.floatingPool.id = rtState.floatingNetworkID ∧
     rtStatus.networks.id = rtState.networkID ∧
     rtStatus.networks.name = rtState.networkName ∧
     rtStatus.networks.router = { id := rtState.routerID, ip := rtState.routerIP } ∧
     rtStatus.networks.subnets = [{ purpose := Purpose.nodes, id := rtState.subnetID }] ∧
     rtStatus.securityGroups =
       [{ purpose := Purpose.nodes, id := rtState.securityGroupID,
          name := rtState.securityGroupName }] ∧
     rtStatus.node.keyName = rtState.sshKeyName ∧
     rtStatus.networks.shareNetwork = (StatusFromTerraformState rtState).networks.shareNetwork) :=
  ⟨rfl, rfl, compute_status_fields rtOutputs c2Config rtStatus rtState rfl rfl⟩

/-- Claim C3: `findFloatingSubnet` returns nil whenever a router is not
required, irrespective of config or constraints; when a router is required it
returns, first match wins, the explicit floating-pool subnet name of the
infrastructure config, then the default floating subnet of the resolved
cloud-profile pool, and nil otherwise; a pool-not-found condition yields nil
rather than an error. -/
theorem findFloatingSubnet_precedence (config : InfrastructureConfig)
    (cpc : CloudProfileConfig) (region : String) :
    (∀ req : Bool, req = false → findFloatingSubnet req config cpc region = none) ∧
    (∀ s, config.floatingPoolSubnetName = some s →
      findFloatingSubnet true config cpc region = some s) ∧
    (config.floatingPoolSubnetName = none →
      ∀ fp, FindFloatingPool cpc.constraints.floatingPools config.floatingPoolName region =
          Except.ok fp →
        findFloatingSubnet true config cpc region =
          (match fp.defaultFloatingSubnet with
          | some d => some d
          | none => none)) ∧
    (config.floatingPoolSubnetName = none →
      ∀ e, FindFloatingPool cpc.constraints.floatingPools config.floatingPoolName region =
          Except.error e →
        findFloatingSubnet true config cpc region = none) := by
  refine ⟨?_, ?_, ?_, ?_⟩
  · intro req h
    subst h
    rfl
  · intro s hs
    simp [findFloatingSubnet, hs]
  · intro hnone fp hfp
    simp [findFloatingSubnet, hnone, hfp]
  · intro hnone e he
    simp [findFloatingSubnet, hnone, he]

/-- Witness for claim C3: each precedence case at a concrete input. -/
theorem findFloatingSubnet_precedence_witness :
    findFloatingSubnet false c3ConfigExplicit testCPConfig "eu-1" = none ∧
    findFloatingSubnet true c3ConfigExplicit testCPConfig "eu-1" = some "explicit-subnet" ∧
    (findFloatingSubnet true c2Config testCPConfig "eu-1" =
      (match poolA.defaultFloatingSubnet with
      | some d => some d
      | none => none)) ∧
    findFloatingSubnet true c2Config c3EmptyCPC "eu-1" = none :=
  ⟨(findFloatingSubnet_precedence c3ConfigExplicit testCPConfig "eu-1").1 false rfl,
   (findFloatingSubnet_precedence c3ConfigExplicit testCPConfig "eu-1").2.1 "explicit-subnet" rfl,
   (findFloatingSubnet_precedence c2Config testCPConfig "eu-1").2.2.1 rfl poolA rfl,
   (findFloatingSubnet_precedence c2Config c3EmptyCPC "eu-1").2.2.2 rfl
     "cannot find floating pool pool-a" rfl⟩

/-- Claim C7: whenever the class list contains a class whose purpose is
`default`, that (first such) class is the designated default — even when
another class is literally named `default` — and the top-level
`floatingNetworkID` and `floatingSubnetID` chart values are taken from it. -/
theorem default_class_purpose_precedence (classes : List LoadBalancerClass)
    (top : String) (c : LoadBalancerClass)
    (hc : classes.find? (fun c => c.purpose == some "default") = some c)
    (_hname : classes.any (fun d => d.name == "default") = true) :
    findDefaultLoadBalancerClass classes = some c ∧
    c.purpose = some "default" ∧
    resolveFloatingClassValues classes top =
      (c.floatingNetworkID.getD top, c.floatingSubnetID) := by
  refine ⟨?_, ?_, ?_⟩
  · simp [findDefaultLoadBalancerClass, hc]
  · have := List.find?_some hc
    simpa using this
  · simp [resolveFloatingClassValues, findDefaultLoadBalancerClass, hc]

/-- Witness for claim C7 at the class list of the value-provider test. -/
theorem default_class_purpose_precedence_witness :
    findDefaultLoadBalancerClass [lbClassNamedDefault, lbClassRealDefault] =
      some lbClassRealDefault ∧
    lbClassRealDefault.purpose = some "default" ∧
    resolveFloatingClassValues [lbClassNamedDefault, lbClassRealDefault] "fip1" =
      (lbClassRealDefault.floatingNetworkID.getD "fip1", lbClassRealDefault.floatingSubnetID) :=
  default_class_purpose_precedence [lbClassNamedDefault, lbClassRealDefault] "fip1"
    lbClassRealDefault (by decide) (by decide)

/-- Claim C8: for every secret in which the `applicationCredentialID` or
`applicationCredentialSecret` keys are non-empty, the resolved chart values
populate the application-credential fields and force the username and
password values to empty strings, so the two auth modes are never both
populated. -/
theorem credential_exclusivity (secret : List (String × String))
    (h : lookupD secret "applicationCredentialID" ≠ "" ∨
         lookupD secret "applicationCredentialSecret" ≠ "") :
    (resolveCredentialValues secret).username = "" ∧
    (resolveCredentialValues secret).password = "" ∧
    (resolveCredentialValues secret).applicationCredentialID =
      lookupD secret "applicationCredentialID" ∧
    (resolveCredentialValues secret).applicationCredentialSecret =
      lookupD secret "applicationCredentialSecret" ∧
    ¬(((resolveCredentialValues secret).username ≠ "" ∨
       (resolveCredentialValues secret).password ≠ "") ∧
      ((resolveCredentialValues secret).applicationCredentialID ≠ "" ∨
       (resolveCredentialValues secret).applicationCredentialSecret ≠ "")) := by
  have hb : (lookupD secret "applicationCredentialID" != "" ||
      lookupD secret "applicationCredentialSecret" != "") = true := by
    rcases h with h | h <;> simp [h]
  simp [resolveCredentialValues, hb]

/-- Witness for claim C8 at the application-credential secret of the
value-provider test. -/
theorem credential_exclusivity_witness :
    (resolveCredentialValues appCredentialSecretData).username = "" ∧
    (resolveCredentialValues appCredentialSecretData).password = "" ∧
    (resolveCredentialValues appCredentialSecretData).applicationCredentialID =
      lookupD appCredentialSecretData "applicationCredentialID" ∧
    (resolveCredentialValues appCredentialSecretData).applicationCredentialSecret =
      lookupD appCredentialSecretData "applicationCredentialSecret" ∧
    ¬(((resolveCredentialValues appCredentialSecretData).username ≠ "" ∨
       (resolveCredentialValues appCredentialSecretData).password ≠ "") ∧
      ((resolveCredentialValues appCredentialSecretData).applicationCredentialID ≠ "" ∨
       (resolveCredentialValues appCredentialSecretData).applicationCredentialSecret ≠ "")) :=
  credential_exclusivity appCredentialSecretData (Or.inl (by decide))

/-- Claim C9: the shoot chart values carry `pspDisabled = true` iff the
admission-plugin list contains an entry named `PodSecurityPolicy` whose
disabled field is explicitly true; an empty list, or the plugin without the
explicit disabled flag, yields `pspDisabled = false`. -/
theorem psp_gate (admissionPlugins : List AdmissionPlugin) :
    ((computeShootChartValues admissionPlugins).pspDisabled = true ↔
      ∃ p ∈ admissionPlugins, p.name = "PodSecurityPolicy" ∧ p.disabled = some true) ∧
    (computeShootChartValues []).pspDisabled = false ∧
    (computeShootChartValues [{ name := "PodSecurityPolicy", disabled := none }]).pspDisabled
      = false ∧
    (computeShootChartValues [{ name := "PodSecurityPolicy", disabled := some true }]).pspDisabled
      = true := by
  refine ⟨?_, rfl, rfl, rfl⟩
  simp [computeShootChartValues, isPSPDisabled, List.any_eq_true, Bool.and_eq_true]
